import Mathlib

/-!
A shallow embedding of `src/WeatherApi.py` (gamblesser/weatherApiPy).

Modelling decisions, all traceable to the source:

* Timestamps are natural numbers of seconds.  The Python code compares
  `(current_time - created).total_seconds() / 60` against `10`, which over the
  reals is equivalent to comparing the difference in seconds against `600`.
  Natural subtraction truncates a negative difference to `0`; Python's signed
  difference would be negative there, and a negative value is `< 10` and not
  `> 10`, exactly as `0` is `< 600` and not `> 600`, so the truncation agrees
  with the source on both comparisons.
* Each operation receives a single `now`; the source reads the wall clock up
  to three times inside one call (lines 90, 116, 132) but no property here
  depends on the microseconds elapsing between those reads.
* The two HTTP endpoints are an explicit environment `Env`: a response per
  geocode query and per weather coordinate pair.  Operations additionally
  return the list of HTTP requests they issued, in order, so that properties
  about "issues no fetch" / "fetches X before Y" are statements about that
  trace.
* Exceptions are an `Err` value; `update_cities_cache` can fail halfway, so
  it returns the (partially updated) list together with an optional error,
  mirroring in-place mutation up to the point the exception is raised.
* `self.cities.remove(0)` (line 114) asks Python to remove the first list
  element *equal to* the integer `0`; a `City` dataclass instance never
  equals `0`, so this raises `ValueError` and mutates nothing.  It is
  embedded as the error `Err.removeNotFound` with the list unchanged.
-/

namespace WeatherApiPy

/-- The two client behaviours (`Behaviors` enum, lines 9-11). -/
inductive Behaviors where
  | POLLING
  | ON_DEMAND
deriving DecidableEq, Repr

/-- An opaque JSON weather payload; `empty` is the empty dict `{}`. -/
inductive Payload where
  | empty
  | obj (n : Nat)
deriving DecidableEq, Repr

/-- The `City` dataclass (lines 13-19), field for field. -/
structure City where
  city_name : String
  lat : Int
  lon : Int
  weather_data : Payload
  created_datetime : Nat
deriving DecidableEq, Repr

/-- The exceptions the source can raise. -/
inductive Err where
  | validation
  | badStatus (code : Nat)
  | transport
  | removeNotFound
  | duplicateKey
deriving DecidableEq, Repr

/-- An HTTP response: a transport failure (`requests.RequestException`) or a
status code with a parsed JSON body. -/
inductive HttpResp (α : Type) where
  | transportError
  | resp (status : Nat) (body : α)
deriving DecidableEq, Repr

/-- One element of the geocode endpoint's JSON array: its `lon` and `lat`
fields (lines 77-80). -/
structure GeoPoint where
  lon : Int
  lat : Int
deriving DecidableEq, Repr

/-- The external world: what each endpoint would answer. -/
structure Env where
  geo : String → HttpResp (List GeoPoint)
  weather : Int → Int → HttpResp Payload

/-- An HTTP request, as recorded in an operation's trace. -/
inductive Req where
  | geo (city_name : String)
  | weather (lat lon : Int)
deriving DecidableEq, Repr

/-- Whether a string is empty or whitespace-only: `param.strip() == ""` in
Python holds exactly when every character of the string is whitespace, and
this structurally recursive scan expresses that test directly. -/
def isBlank (s : String) : Bool :=
  s.data.all (fun ch => ch.isWhitespace)

/-- `WeatherApiValidator.is_valid_parameter` (lines 22-25): raises
`ValueError` on an empty or whitespace-only string.  (`not param` is
subsumed by `param.strip() == ""`; the non-`str` branch cannot arise in a
typed embedding.) -/
def is_valid_parameter (param : String) : Except Err Bool :=
  if isBlank param then Except.error Err.validation else Except.ok true

/-- `WeatherApiValidator.is_valid_status_code_response` (lines 27-30). -/
def is_valid_status_code_response (status : Nat) : Except Err Bool :=
  if status ≠ 200 then Except.error (Err.badStatus status) else Except.ok true

/-- `WeatherApi.__init__` (lines 35-44): the process-wide registry is the
list of live clients' API keys; a duplicate key raises before anything is
registered, otherwise the new key is appended. -/
def WeatherApi_init (registry : List String) (api_key : String) :
    Except Err Unit × List String :=
  if registry.any (fun k => k == api_key) then
    (Except.error Err.duplicateKey, registry)
  else
    (Except.ok (), registry ++ [api_key])

/-- `WeatherApi.remove_city_by_name` (lines 61-62). -/
def remove_city_by_name (cities : List City) (city_name : String) : List City :=
  cities.filter (fun c => c.city_name != city_name)

/-- `WeatherApi.get_city_lon_lat` (lines 64-82): validate, GET the geocode
endpoint, check the status, return the first match or `none` for an empty
array. -/
def get_city_lon_lat (env : Env) (city_name : String) :
    Except Err (Option GeoPoint) × List Req :=
  match is_valid_parameter city_name with
  | Except.error e => (Except.error e, [])
  | Except.ok _ =>
    match env.geo city_name with
    | HttpResp.transportError => (Except.error Err.transport, [Req.geo city_name])
    | HttpResp.resp status data =>
      match is_valid_status_code_response status with
      | Except.error e => (Except.error e, [Req.geo city_name])
      | Except.ok _ =>
        match data with
        | [] => (Except.ok none, [Req.geo city_name])
        | p :: _ => (Except.ok (some p), [Req.geo city_name])

/-- `WeatherApi._send_request_to_get_weather_city_json` (lines 119-129):
validate the name, GET the weather endpoint for the coordinates, check the
status, return the body. -/
def send_request_to_get_weather_city_json (env : Env) (city_name : String)
    (lat lon : Int) : Except Err Payload × List Req :=
  match is_valid_parameter city_name with
  | Except.error e => (Except.error e, [])
  | Except.ok _ =>
    match env.weather lat lon with
    | HttpResp.transportError => (Except.error Err.transport, [Req.weather lat lon])
    | HttpResp.resp status body =>
      match is_valid_status_code_response status with
      | Except.error e => (Except.error e, [Req.weather lat lon])
      | Except.ok _ => (Except.ok body, [Req.weather lat lon])

/-- `WeatherApi.update_cities_cache` (lines 131-140): for every entry strictly
older than 10 minutes, re-fetch with its stored coordinates and overwrite its
payload and timestamp in place.  An exception aborts the loop, leaving the
already-visited entries updated; the result is the (possibly partially
updated) list, the issued requests, and the error if one was raised. -/
def update_cities_cache (env : Env) (now : Nat) :
    List City → List City × List Req × Option Err
  | [] => ([], [], none)
  | c :: rest =>
    if 600 < now - c.created_datetime then
      match send_request_to_get_weather_city_json env c.city_name c.lat c.lon with
      | (Except.error e, tr) => (c :: rest, tr, some e)
      | (Except.ok wd, tr) =>
        match update_cities_cache env now rest with
        | (rest2, tr2, err) =>
          ({ c with weather_data := wd, created_datetime := now } :: rest2,
           tr ++ tr2, err)
    else
      match update_cities_cache env now rest with
      | (rest2, tr2, err) => (c :: rest2, tr2, err)

/-- The freshness test of the first cache scan (lines 91-94): same name and
age strictly under 10 minutes. -/
def fresh_match (city_name : String) (now : Nat) (c : City) : Bool :=
  c.city_name == city_name && now - c.created_datetime < 600

/-- The test of the second cache scan (lines 103-109): same name, same
coordinates, age strictly under 10 minutes. -/
def fresh_coord_match (city_name : String) (lon lat : Int) (now : Nat)
    (c : City) : Bool :=
  c.city_name == city_name && c.lon == lon && c.lat == lat &&
    now - c.created_datetime < 600

deriving instance DecidableEq for Except

/-- The outcome of `get_and_cache_weather_city`: its return value (or raised
error), the client's city list afterwards, and the HTTP requests issued. -/
structure OpResult where
  result : Except Err Payload
  cities : List City
  trace : List Req
deriving DecidableEq, Repr

/-- Lines 90-117 of `WeatherApi.get_and_cache_weather_city`, operating on the
cache as it stands after the optional polling refresh (`cities1`, with `tr1`
the requests the refresh issued): serve the first fresh same-name entry;
geocode (an empty geocode result returns `{}`); serve the first fresh
same-name same-coordinates entry; fetch the weather; if the list already
holds more than 9 entries, `self.cities.remove(0)` raises `ValueError` (no
`City` equals the integer `0`); otherwise append the new entry. -/
def lookup_or_fetch (env : Env) (now : Nat) (cities1 : List City)
    (tr1 : List Req) (city_name : String) : OpResult :=
  match cities1.find? (fresh_match city_name now) with
  | some c => ⟨Except.ok c.weather_data, cities1, tr1⟩
  | none =>
    match get_city_lon_lat env city_name with
    | (Except.error e, tr2) => ⟨Except.error e, cities1, tr1 ++ tr2⟩
    | (Except.ok none, tr2) => ⟨Except.ok Payload.empty, cities1, tr1 ++ tr2⟩
    | (Except.ok (some p), tr2) =>
      match cities1.find? (fresh_coord_match city_name p.lon p.lat now) with
      | some c => ⟨Except.ok c.weather_data, cities1, tr1 ++ tr2⟩
      | none =>
        match send_request_to_get_weather_city_json env city_name p.lat p.lon with
        | (Except.error e, tr3) => ⟨Except.error e, cities1, tr1 ++ tr2 ++ tr3⟩
        | (Except.ok wd, tr3) =>
          if cities1.length > 9 then
            ⟨Except.error Err.removeNotFound, cities1, tr1 ++ tr2 ++ tr3⟩
          else
            ⟨Except.ok wd, cities1 ++ [⟨city_name, p.lat, p.lon, wd, now⟩],
             tr1 ++ tr2 ++ tr3⟩

/-- `WeatherApi.get_and_cache_weather_city` (lines 84-117): validate; in
polling mode refresh the whole cache first (a refresh exception propagates,
leaving the partially refreshed cache); then look up or fetch the requested
city on the resulting cache via `lookup_or_fetch`. -/
def get_and_cache_weather_city (env : Env) (behavior : Behaviors) (now : Nat)
    (cities : List City) (city_name : String) : OpResult :=
  match is_valid_parameter city_name with
  | Except.error e => ⟨Except.error e, cities, []⟩
  | Except.ok _ =>
    match (if behavior = Behaviors.POLLING then update_cities_cache env now cities
           else (cities, [], none)) with
    | (cities1, tr1, some e) => ⟨Except.error e, cities1, tr1⟩
    | (cities1, tr1, none) => lookup_or_fetch env now cities1 tr1 city_name

/-- An entry is stale when its age is strictly over 10 minutes (line 135). -/
def stale (now : Nat) (c : City) : Bool :=
  600 < now - c.created_datetime

/-- Whether the weather endpoint answers these coordinates with status 200. -/
def weatherSucceeds (env : Env) (lat lon : Int) : Bool :=
  match env.weather lat lon with
  | HttpResp.resp 200 _ => true
  | _ => false

/-- The payload the weather endpoint returns for these coordinates (defaulting
to `{}` when the call would not succeed). -/
def weatherVal (env : Env) (lat lon : Int) : Payload :=
  match env.weather lat lon with
  | HttpResp.resp 200 p => p
  | _ => Payload.empty

/-- What one cache entry becomes under a successful polling refresh: a stale
entry gets the re-fetched payload and the current timestamp, a non-stale
entry is untouched. -/
def refreshOne (env : Env) (now : Nat) (c : City) : City :=
  if stale now c then
    { c with weather_data := weatherVal env c.lat c.lon, created_datetime := now }
  else c

/-- The refresh requests a successful polling pass issues: one weather GET
per stale entry, in cache order. -/
def staleTrace (now : Nat) (cities : List City) : List Req :=
  (cities.filter (stale now)).map (fun c => Req.weather c.lat c.lon)

/-- Is a request a weather fetch? -/
def isWeatherReq : Req → Bool
  | Req.weather _ _ => true
  | _ => false

/-- The client's cache before the per-request processing: in polling mode the
refreshed list, otherwise the list as it was. -/
def preRefresh (env : Env) (behavior : Behaviors) (now : Nat)
    (cities : List City) : List City :=
  if behavior = Behaviors.POLLING then cities.map (refreshOne env now) else cities

/-- The requests issued before the per-request processing: in polling mode the
refresh requests, otherwise none. -/
def preTrace (behavior : Behaviors) (now : Nat) (cities : List City) : List Req :=
  if behavior = Behaviors.POLLING then staleTrace now cities else []

/-- A geocode endpoint that knows "London" and "Tokyo" and a weather endpoint
that always answers 200; used as the concrete environment of witnesses. -/
def envW : Env :=
  ⟨fun name =>
     if name = "London" then HttpResp.resp 200 [⟨2, 1⟩]
     else if name = "Tokyo" then HttpResp.resp 200 [⟨30, 31⟩]
     else HttpResp.resp 200 [],
   fun lat lon => HttpResp.resp 200 (Payload.obj (lat.toNat * 100 + lon.toNat))⟩

/-- A cached London entry fetched at time 0. -/
def cityLondon : City := ⟨"London", 1, 2, Payload.obj 5, 0⟩

/-- A cached Paris entry fetched at time 0. -/
def cityParis : City := ⟨"Paris", 48, 2, Payload.obj 1, 0⟩

/-- Ten cached entries with distinct names, all fetched at time 0. -/
def tenCities : List City :=
  [⟨"a", 0, 0, Payload.obj 0, 0⟩, ⟨"b", 0, 0, Payload.obj 0, 0⟩,
   ⟨"c", 0, 0, Payload.obj 0, 0⟩, ⟨"d", 0, 0, Payload.obj 0, 0⟩,
   ⟨"e", 0, 0, Payload.obj 0, 0⟩, ⟨"f", 0, 0, Payload.obj 0, 0⟩,
   ⟨"g", 0, 0, Payload.obj 0, 0⟩, ⟨"h", 0, 0, Payload.obj 0, 0⟩,
   ⟨"i", 0, 0, Payload.obj 0, 0⟩, ⟨"j", 0, 0, Payload.obj 0, 0⟩]

theorem is_valid_parameter_ok {s : String} (h : isBlank s ≠ true) :
    is_valid_parameter s = Except.ok true := by
  simp [is_valid_parameter, h]

@[simp] theorem refreshOne_city_name (env : Env) (now : Nat) (c : City) :
    (refreshOne env now c).city_name = c.city_name := by
  unfold refreshOne; split <;> rfl

@[simp] theorem refreshOne_lat (env : Env) (now : Nat) (c : City) :
    (refreshOne env now c).lat = c.lat := by
  unfold refreshOne; split <;> rfl

@[simp] theorem refreshOne_lon (env : Env) (now : Nat) (c : City) :
    (refreshOne env now c).lon = c.lon := by
  unfold refreshOne; split <;> rfl

theorem send_request_ok (env : Env) {name : String} (lat lon : Int)
    (h1 : isBlank name ≠ true) (h2 : weatherSucceeds env lat lon = true) :
    send_request_to_get_weather_city_json env name lat lon =
      (Except.ok (weatherVal env lat lon), [Req.weather lat lon]) := by
  unfold send_request_to_get_weather_city_json
  rw [is_valid_parameter_ok h1]
  unfold weatherSucceeds at h2
  unfold weatherVal
  rcases hw : env.weather lat lon with _ | ⟨status, body⟩
  · rw [hw] at h2; simp at h2
  · rw [hw] at h2
    match status, h2 with
    | 200, _ => simp [is_valid_status_code_response]

theorem update_length (env : Env) (now : Nat) (cs : List City) :
    (update_cities_cache env now cs).1.length = cs.length := by
  induction cs with
  | nil => rfl
  | cons c rest ih =>
    unfold update_cities_cache
    split
    · rcases hs : send_request_to_get_weather_city_json env c.city_name c.lat c.lon
        with ⟨r, tr⟩
      rcases r with e | wd
      · simp
      · rcases hu : update_cities_cache env now rest with ⟨rest2, tr2, err⟩
        rw [hu] at ih
        simpa using ih
    · rcases hu : update_cities_cache env now rest with ⟨rest2, tr2, err⟩
      rw [hu] at ih
      simpa using ih

theorem stale_iff {now : Nat} {c : City} :
    stale now c = true ↔ 600 < now - c.created_datetime := by
  simp [stale]

theorem update_eq_of_success (env : Env) (now : Nat) (cs : List City)
    (h : ∀ c ∈ cs, stale now c = true →
      isBlank c.city_name ≠ true ∧ weatherSucceeds env c.lat c.lon = true) :
    update_cities_cache env now cs =
      (cs.map (refreshOne env now), staleTrace now cs, none) := by
  induction cs with
  | nil => rfl
  | cons c rest ih =>
    have hrest : ∀ x ∈ rest, stale now x = true →
        isBlank x.city_name ≠ true ∧ weatherSucceeds env x.lat x.lon = true :=
      fun x hx => h x (List.mem_cons_of_mem _ hx)
    unfold update_cities_cache
    by_cases hs : stale now c = true
    · obtain ⟨h1, h2⟩ := h c (List.mem_cons_self _ _) hs
      rw [if_pos (stale_iff.mp hs), send_request_ok env c.lat c.lon h1 h2, ih hrest]
      simp [refreshOne, staleTrace, hs]
    · have hs2 : ¬ 600 < now - c.created_datetime := fun hlt => hs (stale_iff.mpr hlt)
      rw [if_neg hs2, ih hrest]
      simp [refreshOne, staleTrace, hs]

theorem countP_map_refreshOne (env : Env) (now : Nat) (C : String)
    (cs : List City) :
    (cs.map (refreshOne env now)).countP (fun c => c.city_name == C) =
      cs.countP (fun c => c.city_name == C) := by
  induction cs with
  | nil => rfl
  | cons c rest ih =>
    simp only [List.map_cons, List.countP_cons, refreshOne_city_name, ih]

theorem find?_fresh_none_of_names {C : String} {now : Nat} {cs : List City}
    (h : ∀ c ∈ cs, c.city_name ≠ C) :
    cs.find? (fresh_match C now) = none := by
  rw [List.find?_eq_none]
  intro c hc
  simp [fresh_match, h c hc]

theorem find?_coord_none_of_names {C : String} {lon lat : Int} {now : Nat}
    {cs : List City} (h : ∀ c ∈ cs, c.city_name ≠ C) :
    cs.find? (fresh_coord_match C lon lat now) = none := by
  rw [List.find?_eq_none]
  intro c hc
  simp [fresh_coord_match, h c hc]

theorem find?_append_none {p : City → Bool} {l1 l2 : List City}
    (h : l1.find? p = none) :
    (l1 ++ l2).find? p = l2.find? p := by
  induction l1 with
  | nil => rfl
  | cons c rest ih =>
    rcases hp : p c with _ | _
    · simp only [List.cons_append, List.find?_cons, hp] at h ⊢
      exact ih h
    · simp [List.find?_cons, hp] at h

theorem find?_map_refreshed (env : Env) (now : Nat) (C : String)
    (cs : List City)
    (hone : cs.countP (fun c => c.city_name == C) = 1)
    (hstale : ∀ c ∈ cs, c.city_name = C → stale now c = true) :
    ∃ c0 ∈ cs, c0.city_name = C ∧ stale now c0 = true ∧
      (cs.map (refreshOne env now)).find? (fresh_match C now) =
        some (refreshOne env now c0) := by
  induction cs with
  | nil => simp at hone
  | cons c rest ih =>
    by_cases hc : c.city_name = C
    · refine ⟨c, List.mem_cons_self _ _, hc, hstale c (List.mem_cons_self _ _) hc, ?_⟩
      have hfm : fresh_match C now (refreshOne env now c) = true := by
        have hs := hstale c (List.mem_cons_self _ _) hc
        simp only [fresh_match, refreshOne, hs, if_true]
        simp [hc]
      simp [List.find?_cons, hfm]
    · have hone2 : rest.countP (fun x => x.city_name == C) = 1 := by
        have : (c.city_name == C) = false := by simp [hc]
        simpa [List.countP_cons, this] using hone
      have hstale2 : ∀ x ∈ rest, x.city_name = C → stale now x = true :=
        fun x hx => hstale x (List.mem_cons_of_mem _ hx)
      obtain ⟨c0, hc0, hname, hs, hfind⟩ := ih hone2 hstale2
      refine ⟨c0, List.mem_cons_of_mem _ hc0, hname, hs, ?_⟩
      have hfm : fresh_match C now (refreshOne env now c) = false := by
        simp [fresh_match, hc]
      simp [List.find?_cons, hfm, hfind]

theorem get_on_demand_eq (env : Env) (now : Nat) (cities : List City)
    {name : String} (hv : isBlank name ≠ true) :
    get_and_cache_weather_city env Behaviors.ON_DEMAND now cities name =
      lookup_or_fetch env now cities [] name := by
  unfold get_and_cache_weather_city
  rw [is_valid_parameter_ok hv]
  rfl

theorem get_polling_eq (env : Env) (now : Nat) (cities : List City)
    {name : String} (hv : isBlank name ≠ true)
    (hok : ∀ c ∈ cities, stale now c = true →
      isBlank c.city_name ≠ true ∧ weatherSucceeds env c.lat c.lon = true) :
    get_and_cache_weather_city env Behaviors.POLLING now cities name =
      lookup_or_fetch env now (cities.map (refreshOne env now))
        (staleTrace now cities) name := by
  unfold get_and_cache_weather_city
  rw [is_valid_parameter_ok hv, update_eq_of_success env now cities hok]
  rfl

theorem get_city_lon_lat_ok_some {env : Env} {name : String} {p : GeoPoint}
    (h : (get_city_lon_lat env name).1 = Except.ok (some p)) :
    get_city_lon_lat env name = (Except.ok (some p), [Req.geo name]) := by
  by_cases hv : isBlank name = true
  · rw [show get_city_lon_lat env name = (Except.error Err.validation, []) from by
      simp [get_city_lon_lat, is_valid_parameter, hv]] at h
    simp at h
  · unfold get_city_lon_lat at h ⊢
    rw [is_valid_parameter_ok hv] at h ⊢
    rcases hg : env.geo name with _ | ⟨status, data⟩
    · rw [hg] at h
      simp at h
    · rw [hg] at h
      by_cases hst : status = 200
      · subst hst
        rcases data with _ | ⟨q, rest⟩
        · simp [is_valid_status_code_response] at h
        · have hqp : q = p := by
            simpa [is_valid_status_code_response] using h
          subst hqp
          simp [is_valid_status_code_response]
      · simp [is_valid_status_code_response, hst] at h

theorem send_request_ok_inv {env : Env} {name : String} {lat lon : Int}
    {wd : Payload}
    (h : (send_request_to_get_weather_city_json env name lat lon).1 =
      Except.ok wd) :
    wd = weatherVal env lat lon ∧
    send_request_to_get_weather_city_json env name lat lon =
      (Except.ok wd, [Req.weather lat lon]) := by
  by_cases hv : isBlank name = true
  · rw [show send_request_to_get_weather_city_json env name lat lon =
        (Except.error Err.validation, []) from by
      simp [send_request_to_get_weather_city_json, is_valid_parameter, hv]] at h
    simp at h
  · unfold send_request_to_get_weather_city_json at h ⊢
    rw [is_valid_parameter_ok hv] at h ⊢
    rcases hw : env.weather lat lon with _ | ⟨status, body⟩
    · rw [hw] at h
      simp at h
    · rw [hw] at h
      by_cases hst : status = 200
      · subst hst
        have hbw : body = wd := by
          simpa [is_valid_status_code_response] using h
        subst hbw
        exact ⟨by simp [weatherVal, hw], by simp [is_valid_status_code_response]⟩
      · simp [is_valid_status_code_response, hst] at h

theorem lookup_or_fetch_trace (env : Env) (now : Nat) (cities1 : List City)
    (tr1 : List Req) (name : String) :
    ∃ tail, (lookup_or_fetch env now cities1 tr1 name).trace = tr1 ++ tail := by
  unfold lookup_or_fetch
  split
  · exact ⟨[], by simp⟩
  · split
    next e tr2 heq => exact ⟨tr2, rfl⟩
    next tr2 heq => exact ⟨tr2, rfl⟩
    next p tr2 heq =>
      split
      · exact ⟨tr2, rfl⟩
      · split
        next e tr3 heq3 => exact ⟨tr2 ++ tr3, by rw [List.append_assoc]⟩
        next wd tr3 heq3 =>
          split
          · exact ⟨tr2 ++ tr3, by rw [List.append_assoc]⟩
          · exact ⟨tr2 ++ tr3, by rw [List.append_assoc]⟩

theorem lookup_or_fetch_cities_ext (env : Env) (now : Nat) (cities1 : List City)
    (tr1 : List Req) (name : String) :
    ∃ ext, (lookup_or_fetch env now cities1 tr1 name).cities = cities1 ++ ext := by
  unfold lookup_or_fetch
  split
  · exact ⟨[], by simp⟩
  · split
    next e tr2 heq => exact ⟨[], by simp⟩
    next tr2 heq => exact ⟨[], by simp⟩
    next p tr2 heq =>
      split
      · exact ⟨[], by simp⟩
      · split
        next e tr3 heq3 => exact ⟨[], by simp⟩
        next wd tr3 heq3 =>
          split
          · exact ⟨[], by simp⟩
          · exact ⟨[⟨name, p.lat, p.lon, wd, now⟩], rfl⟩

theorem lookup_or_fetch_cities_length (env : Env) (now : Nat)
    (cities1 : List City) (tr1 : List Req) (name : String) :
    (lookup_or_fetch env now cities1 tr1 name).cities = cities1 ∨
    ((lookup_or_fetch env now cities1 tr1 name).cities.length =
        cities1.length + 1 ∧ cities1.length ≤ 9) := by
  unfold lookup_or_fetch
  split
  · left; rfl
  · split
    next e tr2 heq => left; rfl
    next tr2 heq => left; rfl
    next p tr2 heq =>
      split
      · left; rfl
      · split
        next e tr3 heq3 => left; rfl
        next wd tr3 heq3 =>
          split
          next h5 => left; rfl
          next h5 =>
            right
            constructor
            · simp
            · omega

theorem lookup_or_fetch_cases (env : Env) (now : Nat) (cities1 : List City)
    (tr1 : List Req) (name : String) :
    (lookup_or_fetch env now cities1 tr1 name).cities = cities1 ∨
    (cities1.find? (fresh_match name now) = none ∧
     ∃ p : GeoPoint,
       lookup_or_fetch env now cities1 tr1 name =
         ⟨Except.ok (weatherVal env p.lat p.lon),
          cities1 ++ [⟨name, p.lat, p.lon, weatherVal env p.lat p.lon, now⟩],
          tr1 ++ [Req.geo name, Req.weather p.lat p.lon]⟩ ∧
       cities1.length ≤ 9) := by
  unfold lookup_or_fetch
  split
  · left; rfl
  next hfind =>
    split
    next e tr2 heq => left; rfl
    next tr2 heq => left; rfl
    next p tr2 heq =>
      have hfst : (get_city_lon_lat env name).1 = Except.ok (some p) := by
        rw [heq]
      have hfull := get_city_lon_lat_ok_some hfst
      have htr2 : tr2 = [Req.geo name] :=
        congrArg Prod.snd (heq.symm.trans hfull)
      split
      · left; rfl
      · split
        next e tr3 heq3 => left; rfl
        next wd tr3 heq3 =>
          have h3fst : (send_request_to_get_weather_city_json env name p.lat p.lon).1 =
              Except.ok wd := by rw [heq3]
          obtain ⟨hwd, hfull3⟩ := send_request_ok_inv h3fst
          have htr3 : tr3 = [Req.weather p.lat p.lon] :=
            congrArg Prod.snd (heq3.symm.trans hfull3)
          split
          next h5 => left; rfl
          next h5 =>
            right
            refine ⟨hfind, p, ?_, by omega⟩
            subst hwd htr2 htr3
            simp

theorem get_cities_length_cases (env : Env) (behavior : Behaviors) (now : Nat)
    (cities : List City) (name : String) :
    (get_and_cache_weather_city env behavior now cities name).cities.length =
      cities.length ∨
    ((get_and_cache_weather_city env behavior now cities name).cities.length =
        cities.length + 1 ∧ cities.length ≤ 9) := by
  unfold get_and_cache_weather_city
  split
  · left; rfl
  · split
    next c1 t1 e heq =>
      left
      show c1.length = cities.length
      by_cases hb : behavior = Behaviors.POLLING
      · rw [if_pos hb] at heq
        have h2 := update_length env now cities
        rw [heq] at h2
        exact h2
      · rw [if_neg hb] at heq
        exact (congrArg (fun t => t.1.length) heq).symm.trans rfl
    next c1 t1 heq =>
      have hlen : c1.length = cities.length := by
        by_cases hb : behavior = Behaviors.POLLING
        · rw [if_pos hb] at heq
          have h2 := update_length env now cities
          rw [heq] at h2
          exact h2
        · rw [if_neg hb] at heq
          exact (congrArg (fun t => t.1.length) heq).symm.trans rfl
      rcases lookup_or_fetch_cities_length env now c1 t1 name with h1 | ⟨h1, h2⟩
      · left
        rw [h1]
        exact hlen
      · right
        constructor
        · rw [h1, hlen]
        · omega

theorem get_city_lon_lat_trace {env : Env} {name : String}
    (hv : isBlank name ≠ true) :
    (get_city_lon_lat env name).2 = [Req.geo name] := by
  unfold get_city_lon_lat
  rw [is_valid_parameter_ok hv]
  rcases hg : env.geo name with _ | ⟨status, data⟩
  · rfl
  · rcases hst : is_valid_status_code_response status with e | b
    · simp [hst]
    · rcases data with _ | _ <;> simp [hst]

theorem lookup_or_fetch_trace_of_miss (env : Env) (now : Nat)
    (cities1 : List City) (tr1 : List Req) {name : String}
    (hv : isBlank name ≠ true)
    (hmiss : cities1.find? (fresh_match name now) = none) :
    ∃ rest, (lookup_or_fetch env now cities1 tr1 name).trace =
      tr1 ++ (Req.geo name :: rest) := by
  unfold lookup_or_fetch
  split
  next c heq => rw [hmiss] at heq; cases heq
  · split
    next e tr2 heq =>
      have htr2 : tr2 = [Req.geo name] := by
        have h2 := @get_city_lon_lat_trace env name hv
        rw [heq] at h2
        exact h2
      subst htr2
      exact ⟨[], rfl⟩
    next tr2 heq =>
      have htr2 : tr2 = [Req.geo name] := by
        have h2 := @get_city_lon_lat_trace env name hv
        rw [heq] at h2
        exact h2
      subst htr2
      exact ⟨[], rfl⟩
    next p tr2 heq =>
      have htr2 : tr2 = [Req.geo name] := by
        have h2 := @get_city_lon_lat_trace env name hv
        rw [heq] at h2
        exact h2
      subst htr2
      split
      · exact ⟨[], rfl⟩
      · split
        next e tr3 heq3 => exact ⟨tr3, by simp⟩
        next wd tr3 heq3 =>
          split
          · exact ⟨tr3, by simp⟩
          · exact ⟨tr3, by simp⟩

theorem countP_name_zero {C : String} {l : List City}
    (h : ∀ c ∈ l, c.city_name ≠ C) :
    l.countP (fun c => c.city_name == C) = 0 := by
  rw [List.countP_eq_zero]
  intro c hc
  simp [h c hc]

/-- **C1 counterexample**: in on-demand mode a cached London entry of age 700
seconds (at least 10 minutes) is not updated in place by `getWeather("London")`
— the call geocodes, fetches, and appends a second London entry, leaving two
entries for the city, so the claim's "updates the existing entry in place,
leaving exactly one entry" is false as stated. -/
theorem C1_counterexample :
    600 ≤ 700 - cityLondon.created_datetime ∧
    cityLondon.city_name = "London" ∧
    get_and_cache_weather_city envW Behaviors.ON_DEMAND 700 [cityLondon] "London" =
      ⟨Except.ok (Payload.obj 102),
       [cityLondon, ⟨"London", 1, 2, Payload.obj 102, 700⟩],
       [Req.geo "London", Req.weather 1 2]⟩ ∧
    (get_and_cache_weather_city envW Behaviors.ON_DEMAND 700 [cityLondon]
        "London").cities.countP (fun c => c.city_name == "London") = 2 := by
  refine ⟨by decide, rfl, rfl, by decide⟩

/-- **C2**: with the cache at its capacity of 10 entries, a `getWeather` call
for an 11th distinct city that reaches the insert step does not evict the
oldest entry and append — `self.cities.remove(0)` looks for a list element
equal to the integer `0`, finds none, and raises `ValueError`
(`Err.removeNotFound`), so the call fails and the cache is left with its 10
original entries and no new one. -/
theorem C2_eviction_raises_at_capacity :
    tenCities.length = 10 ∧
    (∀ c ∈ tenCities, c.city_name ≠ "London") ∧
    envW.geo "London" = HttpResp.resp 200 [⟨2, 1⟩] ∧
    weatherSucceeds envW 1 2 = true ∧
    get_and_cache_weather_city envW Behaviors.ON_DEMAND 0 tenCities "London" =
      ⟨Except.error Err.removeNotFound, tenCities,
       [Req.geo "London", Req.weather 1 2]⟩ := by
  refine ⟨rfl, by decide, rfl, rfl, rfl⟩

/-- **C3**: a freshly constructed client has an empty cache, and every
operation — `get_and_cache_weather_city` (any behaviour, normal return or
error), `remove_city_by_name`, and `update_cities_cache` (even when a refresh
fails halfway) — keeps the cache at 10 entries or fewer. -/
theorem C3_capacity_invariant (env : Env) (behavior : Behaviors) (now : Nat)
    (cities : List City) (name X : String) (h : cities.length ≤ 10) :
    (([] : List City)).length ≤ 10 ∧
    (get_and_cache_weather_city env behavior now cities name).cities.length ≤ 10 ∧
    (remove_city_by_name cities X).length ≤ 10 ∧
    (update_cities_cache env now cities).1.length ≤ 10 := by
  refine ⟨by simp, ?_, ?_, ?_⟩
  · rcases get_cities_length_cases env behavior now cities name with h1 | ⟨h1, h2⟩ <;>
      omega
  · have hf := List.length_filter_le (fun c => c.city_name != X) cities
    unfold remove_city_by_name
    omega
  · rw [update_length env now cities]
    exact h

/-- Witness for C3 at a concrete client state. -/
theorem C3_witness :
    ([cityLondon] : List City).length ≤ 10 ∧
    ((([] : List City)).length ≤ 10 ∧
     (get_and_cache_weather_city envW Behaviors.POLLING 700 [cityLondon]
        "Tokyo").cities.length ≤ 10 ∧
     (remove_city_by_name [cityLondon] "London").length ≤ 10 ∧
     (update_cities_cache envW 700 [cityLondon]).1.length ≤ 10) :=
  ⟨by decide,
   C3_capacity_invariant envW Behaviors.POLLING 700 [cityLondon] "Tokyo" "London"
     (by decide)⟩

/-- **C7**: constructing a client with the API key of a live registered
client raises (`Err.duplicateKey`) and leaves the registry unchanged, while a
key held by no live client registers the new client by appending its key. -/
theorem C7_duplicate_key_registration (registry : List String) (k : String) :
    (k ∈ registry →
      WeatherApi_init registry k = (Except.error Err.duplicateKey, registry)) ∧
    (k ∉ registry →
      WeatherApi_init registry k = (Except.ok (), registry ++ [k])) := by
  have hmem : ((registry.any (fun x => x == k)) = true) ↔ k ∈ registry := by
    simp [List.any_eq_true]
  constructor
  · intro hk
    unfold WeatherApi_init
    rw [if_pos (hmem.mpr hk)]
  · intro hk
    unfold WeatherApi_init
    rw [if_neg (fun hh => hk (hmem.mp hh))]

/-- Witness for C7: a duplicate key is rejected, a fresh key is registered. -/
theorem C7_witness :
    WeatherApi_init ["k1"] "k1" = (Except.error Err.duplicateKey, ["k1"]) ∧
    WeatherApi_init ["k1"] "k2" = (Except.ok (), ["k1", "k2"]) :=
  ⟨(C7_duplicate_key_registration ["k1"] "k1").1 (by decide),
   (C7_duplicate_key_registration ["k1"] "k2").2 (by decide)⟩

/-- **C8**: for an empty or whitespace-only city name, both `get_city_lon_lat`
and `get_and_cache_weather_city` (either behaviour) fail with the validation
error before issuing any HTTP request, leaving the cache unchanged. -/
theorem C8_blank_name_fails_without_request (env : Env) (behavior : Behaviors)
    (now : Nat) (cities : List City) (name : String)
    (h : isBlank name = true) :
    get_city_lon_lat env name = (Except.error Err.validation, []) ∧
    get_and_cache_weather_city env behavior now cities name =
      ⟨Except.error Err.validation, cities, []⟩ := by
  constructor
  · simp [get_city_lon_lat, is_valid_parameter, h]
  · simp [get_and_cache_weather_city, is_valid_parameter, h]

/-- Witness for C8 on the whitespace-only name `" "`, in polling mode with a
stale cached entry (even the polling refresh is not reached). -/
theorem C8_witness :
    isBlank " " = true ∧
    (get_city_lon_lat envW " " = (Except.error Err.validation, []) ∧
     get_and_cache_weather_city envW Behaviors.POLLING 700 [cityLondon] " " =
       ⟨Except.error Err.validation, [cityLondon], []⟩) :=
  ⟨by decide,
   C8_blank_name_fails_without_request envW Behaviors.POLLING 700 [cityLondon]
     " " (by decide)⟩

/-- **C9**: `remove_city_by_name` leaves zero entries carrying the removed
name and leaves every entry with a different name unchanged and in its
original relative order: the result is a subsequence of the original list
(so the surviving entries keep their original relative order, also across
different names), and for every other name the sublist of that name's
entries is exactly what it was. -/
theorem C9_remove_city_by_name_spec (cities : List City) (X : String) :
    (remove_city_by_name cities X).countP (fun c => c.city_name == X) = 0 ∧
    (remove_city_by_name cities X).Sublist cities ∧
    ∀ Y : String, Y ≠ X →
      (remove_city_by_name cities X).filter (fun c => c.city_name == Y) =
        cities.filter (fun c => c.city_name == Y) := by
  refine ⟨?_, ?_, ?_⟩
  · rw [List.countP_eq_zero]
    intro c hc
    have hmem := List.of_mem_filter hc
    simpa using hmem
  · unfold remove_city_by_name
    exact List.filter_sublist cities
  · intro Y hY
    unfold remove_city_by_name
    induction cities with
    | nil => rfl
    | cons c rest ih =>
      by_cases hcx : c.city_name = X
      · have h1 : (c.city_name != X) = false := by simp [hcx]
        have h2 : (c.city_name == Y) = false := by
          simp only [beq_eq_false_iff_ne, ne_eq, hcx]
          exact fun hh => hY hh.symm
        simp [List.filter_cons, h1, h2, ih]
      · have h1 : (c.city_name != X) = true := by simp [hcx]
        simp [List.filter_cons, h1, ih]

/-- Witness for C9 on a two-entry cache. -/
theorem C9_witness :
    (remove_city_by_name [cityLondon, cityParis] "London").countP
      (fun c => c.city_name == "London") = 0 ∧
    (remove_city_by_name [cityLondon, cityParis] "London").Sublist
      [cityLondon, cityParis] ∧
    (remove_city_by_name [cityLondon, cityParis] "London").filter
      (fun c => c.city_name == "Paris") =
      ([cityLondon, cityParis] : List City).filter
        (fun c => c.city_name == "Paris") :=
  ⟨(C9_remove_city_by_name_spec [cityLondon, cityParis] "London").1,
   (C9_remove_city_by_name_spec [cityLondon, cityParis] "London").2.1,
   (C9_remove_city_by_name_spec [cityLondon, cityParis] "London").2.2 "Paris"
     (by decide)⟩

/-- **C10**: an entry of age exactly 10 minutes (600 seconds) is neither
fresh nor stale: the cache-serve test (strictly `< 10` minutes) rejects it,
the polling-refresh test (strictly `> 10` minutes) skips it, so
`update_cities_cache` leaves it untouched and issues no request, and
`get_and_cache_weather_city` does not serve it from cache but proceeds to
geocode the requested city. -/
theorem C10_exact_boundary_skipped (env : Env) (behavior : Behaviors)
    (now : Nat) (c : City) (hname : isBlank c.city_name ≠ true)
    (hage : now - c.created_datetime = 600) :
    fresh_match c.city_name now c = false ∧
    stale now c = false ∧
    update_cities_cache env now [c] = ([c], [], none) ∧
    ∃ rest, (get_and_cache_weather_city env behavior now [c] c.city_name).trace =
      Req.geo c.city_name :: rest := by
  have hfm : fresh_match c.city_name now c = false := by
    simp [fresh_match, hage]
  have hstl : stale now c = false := by
    simp [stale, hage]
  have hupd : update_cities_cache env now [c] = ([c], [], none) := by
    simp [update_cities_cache, hage]
  refine ⟨hfm, hstl, hupd, ?_⟩
  have hmiss : ([c] : List City).find? (fresh_match c.city_name now) = none := by
    simp [List.find?_cons, hfm]
  have hred : get_and_cache_weather_city env behavior now [c] c.city_name =
      lookup_or_fetch env now [c] [] c.city_name := by
    by_cases hb : behavior = Behaviors.POLLING
    · subst hb
      have hok : ∀ x ∈ [c], stale now x = true →
          isBlank x.city_name ≠ true ∧ weatherSucceeds env x.lat x.lon = true := by
        intro x hx hsx
        rcases List.mem_singleton.mp hx with rfl
        rw [hstl] at hsx
        cases hsx
      rw [get_polling_eq env now [c] hname hok]
      have h1 : refreshOne env now c = c := by simp [refreshOne, hstl]
      have h2 : staleTrace now [c] = [] := by simp [staleTrace, hstl]
      simp [h1, h2]
    · have hbod : behavior = Behaviors.ON_DEMAND := by
        rcases behavior with _ | _
        · exact absurd rfl hb
        · rfl
      subst hbod
      exact get_on_demand_eq env now [c] hname
  rw [hred]
  obtain ⟨rest, hrest⟩ := lookup_or_fetch_trace_of_miss env now [c] [] hname hmiss
  exact ⟨rest, by simpa using hrest⟩

/-- Witness for C10: a London entry aged exactly 600 seconds is skipped by
both the refresh pass and the cache lookup. -/
theorem C10_witness :
    (isBlank cityLondon.city_name ≠ true ∧ 600 - cityLondon.created_datetime = 600) ∧
    (fresh_match cityLondon.city_name 600 cityLondon = false ∧
     stale 600 cityLondon = false ∧
     update_cities_cache envW 600 [cityLondon] = ([cityLondon], [], none) ∧
     ∃ rest, (get_and_cache_weather_city envW Behaviors.POLLING 600 [cityLondon]
        cityLondon.city_name).trace = Req.geo cityLondon.city_name :: rest) :=
  ⟨⟨by decide, by decide⟩,
   C10_exact_boundary_skipped envW Behaviors.POLLING 600 cityLondon (by decide)
     (by decide)⟩

/-- **C1** (amended): for a client in polling mode with exactly one cached
entry for city C, that entry strictly older than 10 minutes, and every stale
entry refreshable (non-blank stored name, weather endpoint answering 200),
`getWeather(C)` issues a new weather fetch for C's stored coordinates and
updates the existing entry's payload and timestamp in place: the call returns
the re-fetched payload, the cache afterwards is the in-place refreshed list —
still exactly one entry for C, no duplicate appended — and the trace holds
only refresh fetches (no geocode). -/
theorem C1_polling_stale_updates_in_place (env : Env) (now : Nat)
    (cities : List City) (C : String) (hC : isBlank C ≠ true)
    (hone : cities.countP (fun c => c.city_name == C) = 1)
    (hstale : ∀ c ∈ cities, c.city_name = C → stale now c = true)
    (hok : ∀ c ∈ cities, stale now c = true →
      isBlank c.city_name ≠ true ∧ weatherSucceeds env c.lat c.lon = true) :
    ∃ c0 ∈ cities, c0.city_name = C ∧
      get_and_cache_weather_city env Behaviors.POLLING now cities C =
        ⟨Except.ok (weatherVal env c0.lat c0.lon),
         cities.map (refreshOne env now), staleTrace now cities⟩ ∧
      refreshOne env now c0 =
        ⟨c0.city_name, c0.lat, c0.lon, weatherVal env c0.lat c0.lon, now⟩ ∧
      Req.weather c0.lat c0.lon ∈ staleTrace now cities ∧
      (cities.map (refreshOne env now)).countP
        (fun c => c.city_name == C) = 1 := by
  obtain ⟨c0, hc0mem, hc0name, hc0stale, hfind⟩ :=
    find?_map_refreshed env now C cities hone hstale
  refine ⟨c0, hc0mem, hc0name, ?_, ?_, ?_, ?_⟩
  · rw [get_polling_eq env now cities hC hok]
    unfold lookup_or_fetch
    rw [hfind]
    have hwd : (refreshOne env now c0).weather_data =
        weatherVal env c0.lat c0.lon := by
      simp [refreshOne, hc0stale]
    simp [hwd]
  · simp [refreshOne, hc0stale]
  · unfold staleTrace
    exact List.mem_map_of_mem _ (List.mem_filter.mpr ⟨hc0mem, hc0stale⟩)
  · rw [countP_map_refreshOne]
    exact hone

/-- Witness for C1 (amended): the stale London entry is refreshed in place. -/
theorem C1_witness :
    ∃ c0 ∈ [cityLondon], c0.city_name = "London" ∧
      get_and_cache_weather_city envW Behaviors.POLLING 700 [cityLondon] "London" =
        ⟨Except.ok (weatherVal envW c0.lat c0.lon),
         [cityLondon].map (refreshOne envW 700), staleTrace 700 [cityLondon]⟩ ∧
      refreshOne envW 700 c0 =
        ⟨c0.city_name, c0.lat, c0.lon, weatherVal envW c0.lat c0.lon, 700⟩ ∧
      Req.weather c0.lat c0.lon ∈ staleTrace 700 [cityLondon] ∧
      ([cityLondon].map (refreshOne envW 700)).countP
        (fun c => c.city_name == "London") = 1 :=
  C1_polling_stale_updates_in_place envW 700 [cityLondon] "London" (by decide)
    (by decide) (by decide) (by decide)

/-- **C4 counterexample**: a below-capacity cache already holding a fresh
entry for the requested city refutes the claim as stated — the endpoints
would answer successfully, yet `getWeather("London")` serves the cache and
adds no entry, so the cache does not grow by one. -/
theorem C4_counterexample :
    ([cityLondon] : List City).length ≤ 9 ∧
    isBlank "London" ≠ true ∧
    envW.geo "London" = HttpResp.resp 200 [⟨2, 1⟩] ∧
    weatherSucceeds envW 1 2 = true ∧
    get_and_cache_weather_city envW Behaviors.ON_DEMAND 100 [cityLondon] "London" =
      ⟨Except.ok (Payload.obj 5), [cityLondon], []⟩ ∧
    (get_and_cache_weather_city envW Behaviors.ON_DEMAND 100 [cityLondon]
        "London").cities.length = ([cityLondon] : List City).length := by
  refine ⟨by decide, by decide, rfl, rfl, rfl, rfl⟩

/-- **C4** (amended): for a non-blank city name C and a cache below capacity
holding no entry named C (every stale entry refreshable), when the geocode
endpoint resolves C (status 200, first match p) and the weather endpoint
answers 200 for p, `getWeather(C)` returns the fetched payload and grows the
cache by exactly one appended entry carrying C, the returned coordinates, the
payload, and the current timestamp. -/
theorem C4_new_city_adds_one_entry (env : Env) (behavior : Behaviors)
    (now : Nat) (cities : List City) (C : String) (p : GeoPoint)
    (ps : List GeoPoint) (hC : isBlank C ≠ true)
    (hnew : ∀ c ∈ cities, c.city_name ≠ C)
    (hcap : cities.length ≤ 9)
    (hgeo : env.geo C = HttpResp.resp 200 (p :: ps))
    (hw : weatherSucceeds env p.lat p.lon = true)
    (hok : ∀ c ∈ cities, stale now c = true →
      isBlank c.city_name ≠ true ∧ weatherSucceeds env c.lat c.lon = true) :
    get_and_cache_weather_city env behavior now cities C =
      ⟨Except.ok (weatherVal env p.lat p.lon),
       preRefresh env behavior now cities ++
         [⟨C, p.lat, p.lon, weatherVal env p.lat p.lon, now⟩],
       preTrace behavior now cities ++ [Req.geo C, Req.weather p.lat p.lon]⟩ ∧
    (get_and_cache_weather_city env behavior now cities C).cities.length =
      cities.length + 1 ∧
    (get_and_cache_weather_city env behavior now cities C).cities.countP
      (fun c => c.city_name == C) = 1 := by
  have hgl : get_city_lon_lat env C = (Except.ok (some p), [Req.geo C]) := by
    unfold get_city_lon_lat
    rw [is_valid_parameter_ok hC, hgeo]
    simp [is_valid_status_code_response]
  have key : ∀ (cities1 : List City) (tr1 : List Req),
      (∀ c ∈ cities1, c.city_name ≠ C) → cities1.length ≤ 9 →
      lookup_or_fetch env now cities1 tr1 C =
        ⟨Except.ok (weatherVal env p.lat p.lon),
         cities1 ++ [⟨C, p.lat, p.lon, weatherVal env p.lat p.lon, now⟩],
         tr1 ++ [Req.geo C, Req.weather p.lat p.lon]⟩ := by
    intro cities1 tr1 hn hl
    unfold lookup_or_fetch
    simp only [find?_fresh_none_of_names hn, hgl, find?_coord_none_of_names hn,
      send_request_ok env p.lat p.lon hC hw]
    rw [if_neg (by omega : ¬ cities1.length > 9)]
    simp
  have hpre_len : (preRefresh env behavior now cities).length = cities.length := by
    unfold preRefresh
    by_cases hb : behavior = Behaviors.POLLING
    · rw [if_pos hb]
      simp
    · rw [if_neg hb]
  have hpre_names : ∀ c ∈ preRefresh env behavior now cities, c.city_name ≠ C := by
    intro c hc
    unfold preRefresh at hc
    by_cases hb : behavior = Behaviors.POLLING
    · rw [if_pos hb] at hc
      obtain ⟨c1, hc1, rfl⟩ := List.mem_map.mp hc
      simpa using hnew c1 hc1
    · rw [if_neg hb] at hc
      exact hnew c hc
  have main : get_and_cache_weather_city env behavior now cities C =
      ⟨Except.ok (weatherVal env p.lat p.lon),
       preRefresh env behavior now cities ++
         [⟨C, p.lat, p.lon, weatherVal env p.lat p.lon, now⟩],
       preTrace behavior now cities ++ [Req.geo C, Req.weather p.lat p.lon]⟩ := by
    by_cases hb : behavior = Behaviors.POLLING
    · subst hb
      rw [get_polling_eq env now cities hC hok]
      rw [key _ _ (by simpa [preRefresh] using hpre_names)
          (by simpa [preRefresh] using hpre_len.le.trans hcap)]
      simp [preRefresh, preTrace]
    · have hbod : behavior = Behaviors.ON_DEMAND := by
        rcases behavior with _ | _
        · exact absurd rfl hb
        · rfl
      subst hbod
      rw [get_on_demand_eq env now cities hC]
      rw [key _ _ hnew hcap]
      simp [preRefresh, preTrace]
  refine ⟨main, ?_, ?_⟩
  · rw [main]
    show ((preRefresh env behavior now cities) ++
        [(⟨C, p.lat, p.lon, weatherVal env p.lat p.lon, now⟩ : City)]).length =
      cities.length + 1
    rw [List.length_append, hpre_len]
    rfl
  · rw [main]
    show ((preRefresh env behavior now cities) ++
        [(⟨C, p.lat, p.lon, weatherVal env p.lat p.lon, now⟩ : City)]).countP
        (fun c => c.city_name == C) = 1
    rw [List.countP_append, countP_name_zero hpre_names]
    simp

/-- Witness for C4 (amended): fetching Tokyo into an empty on-demand cache. -/
theorem C4_witness :
    get_and_cache_weather_city envW Behaviors.ON_DEMAND 50 [] "Tokyo" =
      ⟨Except.ok (weatherVal envW 31 30),
       preRefresh envW Behaviors.ON_DEMAND 50 [] ++
         [⟨"Tokyo", 31, 30, weatherVal envW 31 30, 50⟩],
       preTrace Behaviors.ON_DEMAND 50 [] ++
         [Req.geo "Tokyo", Req.weather 31 30]⟩ ∧
    (get_and_cache_weather_city envW Behaviors.ON_DEMAND 50 [] "Tokyo").cities.length =
      ([] : List City).length + 1 ∧
    (get_and_cache_weather_city envW Behaviors.ON_DEMAND 50 [] "Tokyo").cities.countP
      (fun c => c.city_name == "Tokyo") = 1 :=
  C4_new_city_adds_one_entry envW Behaviors.ON_DEMAND 50 [] "Tokyo" ⟨30, 31⟩ []
    (by decide) (by decide) (by decide) (by decide) (by decide) (by decide)

/-- **C5**: in on-demand mode, if `getWeather(C)` succeeded and appended a
cache entry (the cache grew by one), then a second `getWeather(C)` at a later
time while that entry's age is under 10 minutes returns the same payload,
leaves the cache untouched, and issues no geocode or weather request — so
exactly one weather fetch is issued across the two calls. -/
theorem C5_second_call_served_from_cache (env : Env) (t1 t2 : Nat)
    (cities : List City) (C : String)
    (hgrow : (get_and_cache_weather_city env Behaviors.ON_DEMAND t1
        cities C).cities.length = cities.length + 1)
    (h12 : t1 ≤ t2) (hfresh : t2 - t1 < 600) :
    (get_and_cache_weather_city env Behaviors.ON_DEMAND t2
        (get_and_cache_weather_city env Behaviors.ON_DEMAND t1 cities C).cities
        C).result =
      (get_and_cache_weather_city env Behaviors.ON_DEMAND t1 cities C).result ∧
    (get_and_cache_weather_city env Behaviors.ON_DEMAND t2
        (get_and_cache_weather_city env Behaviors.ON_DEMAND t1 cities C).cities
        C).cities =
      (get_and_cache_weather_city env Behaviors.ON_DEMAND t1 cities C).cities ∧
    (get_and_cache_weather_city env Behaviors.ON_DEMAND t2
        (get_and_cache_weather_city env Behaviors.ON_DEMAND t1 cities C).cities
        C).trace = [] ∧
    ((get_and_cache_weather_city env Behaviors.ON_DEMAND t1 cities C).trace ++
        (get_and_cache_weather_city env Behaviors.ON_DEMAND t2
          (get_and_cache_weather_city env Behaviors.ON_DEMAND t1 cities C).cities
          C).trace).countP isWeatherReq = 1 := by
  by_cases hC : isBlank C = true
  · exfalso
    have hb : get_and_cache_weather_city env Behaviors.ON_DEMAND t1 cities C =
        ⟨Except.error Err.validation, cities, []⟩ := by
      simp [get_and_cache_weather_city, is_valid_parameter, hC]
    rw [hb] at hgrow
    simp at hgrow
  · rw [get_on_demand_eq env t1 cities hC] at hgrow
    rcases lookup_or_fetch_cases env t1 cities [] C with h1 | ⟨hfind, p, heq, hlen⟩
    · rw [h1] at hgrow
      omega
    · have hr1 : get_and_cache_weather_city env Behaviors.ON_DEMAND t1 cities C =
          ⟨Except.ok (weatherVal env p.lat p.lon),
           cities ++ [(⟨C, p.lat, p.lon, weatherVal env p.lat p.lon, t1⟩ : City)],
           [] ++ [Req.geo C, Req.weather p.lat p.lon]⟩ := by
        rw [get_on_demand_eq env t1 cities hC]
        exact heq
      have hnone1 : cities.find? (fresh_match C t2) = none := by
        rw [List.find?_eq_none] at hfind ⊢
        intro c hc
        have h1 := hfind c hc
        simp only [fresh_match, Bool.and_eq_true, beq_iff_eq, decide_eq_true_eq,
          not_and] at h1 ⊢
        intro hname
        have h2 := h1 hname
        omega
      have hfind2 : (cities ++
            [(⟨C, p.lat, p.lon, weatherVal env p.lat p.lon, t1⟩ : City)]).find?
            (fresh_match C t2) =
          some ⟨C, p.lat, p.lon, weatherVal env p.lat p.lon, t1⟩ := by
        rw [find?_append_none hnone1]
        have hhit : fresh_match C t2
            (⟨C, p.lat, p.lon, weatherVal env p.lat p.lon, t1⟩ : City) = true := by
          simp [fresh_match, hfresh]
        simp [List.find?_cons, hhit]
      have hr2 : get_and_cache_weather_city env Behaviors.ON_DEMAND t2
            (cities ++ [(⟨C, p.lat, p.lon, weatherVal env p.lat p.lon, t1⟩ : City)])
            C =
          ⟨Except.ok (weatherVal env p.lat p.lon),
           cities ++ [(⟨C, p.lat, p.lon, weatherVal env p.lat p.lon, t1⟩ : City)],
           []⟩ := by
        rw [get_on_demand_eq env t2 _ hC]
        unfold lookup_or_fetch
        rw [hfind2]
      rw [hr1]
      refine ⟨?_, ?_, ?_, ?_⟩
      · show (get_and_cache_weather_city env Behaviors.ON_DEMAND t2
            (cities ++ [(⟨C, p.lat, p.lon, weatherVal env p.lat p.lon, t1⟩ : City)])
            C).result = Except.ok (weatherVal env p.lat p.lon)
        rw [hr2]
      · show (get_and_cache_weather_city env Behaviors.ON_DEMAND t2
            (cities ++ [(⟨C, p.lat, p.lon, weatherVal env p.lat p.lon, t1⟩ : City)])
            C).cities =
          cities ++ [(⟨C, p.lat, p.lon, weatherVal env p.lat p.lon, t1⟩ : City)]
        rw [hr2]
      · show (get_and_cache_weather_city env Behaviors.ON_DEMAND t2
            (cities ++ [(⟨C, p.lat, p.lon, weatherVal env p.lat p.lon, t1⟩ : City)])
            C).trace = []
        rw [hr2]
      · show (([] ++ [Req.geo C, Req.weather p.lat p.lon]) ++
            (get_and_cache_weather_city env Behaviors.ON_DEMAND t2
              (cities ++ [(⟨C, p.lat, p.lon, weatherVal env p.lat p.lon, t1⟩ : City)])
              C).trace).countP isWeatherReq = 1
        rw [hr2]
        simp [isWeatherReq]

/-- Witness for C5: Tokyo fetched at time 100 into an empty cache, re-requested
at time 400. -/
theorem C5_witness :
    ((get_and_cache_weather_city envW Behaviors.ON_DEMAND 100 [] "Tokyo").cities.length =
      ([] : List City).length + 1 ∧ 100 ≤ 400 ∧ 400 - 100 < 600) ∧
    ((get_and_cache_weather_city envW Behaviors.ON_DEMAND 400
        (get_and_cache_weather_city envW Behaviors.ON_DEMAND 100 [] "Tokyo").cities
        "Tokyo").result =
      (get_and_cache_weather_city envW Behaviors.ON_DEMAND 100 [] "Tokyo").result ∧
     (get_and_cache_weather_city envW Behaviors.ON_DEMAND 400
        (get_and_cache_weather_city envW Behaviors.ON_DEMAND 100 [] "Tokyo").cities
        "Tokyo").cities =
      (get_and_cache_weather_city envW Behaviors.ON_DEMAND 100 [] "Tokyo").cities ∧
     (get_and_cache_weather_city envW Behaviors.ON_DEMAND 400
        (get_and_cache_weather_city envW Behaviors.ON_DEMAND 100 [] "Tokyo").cities
        "Tokyo").trace = [] ∧
     ((get_and_cache_weather_city envW Behaviors.ON_DEMAND 100 [] "Tokyo").trace ++
        (get_and_cache_weather_city envW Behaviors.ON_DEMAND 400
          (get_and_cache_weather_city envW Behaviors.ON_DEMAND 100 [] "Tokyo").cities
          "Tokyo").trace).countP isWeatherReq = 1) :=
  ⟨⟨by decide, by decide, by decide⟩,
   C5_second_call_served_from_cache envW 100 400 [] "Tokyo" (by decide)
     (by decide) (by decide)⟩

/-- **C6**: in polling mode, a `getWeather` call first issues one refresh
fetch (at the stored coordinates) for every cache entry strictly older than
10 minutes, in cache order, before any request for the requested city — the
trace starts with exactly those refresh fetches — and every stale entry is
updated in place with the re-fetched payload and the current timestamp; the
cache afterwards is the refreshed list possibly extended by one entry for the
requested city. -/
theorem C6_polling_refreshes_stale_before_request (env : Env) (now : Nat)
    (cities : List City) (C : String) (hC : isBlank C ≠ true)
    (hok : ∀ c ∈ cities, stale now c = true →
      isBlank c.city_name ≠ true ∧ weatherSucceeds env c.lat c.lon = true) :
    (∃ tail, (get_and_cache_weather_city env Behaviors.POLLING now cities
        C).trace = staleTrace now cities ++ tail) ∧
    (∀ c ∈ cities, stale now c = true →
      Req.weather c.lat c.lon ∈ staleTrace now cities) ∧
    (∃ ext, (get_and_cache_weather_city env Behaviors.POLLING now cities
        C).cities = cities.map (refreshOne env now) ++ ext) ∧
    (∀ c ∈ cities, stale now c = true →
      refreshOne env now c =
        ⟨c.city_name, c.lat, c.lon, weatherVal env c.lat c.lon, now⟩) := by
  rw [get_polling_eq env now cities hC hok]
  refine ⟨lookup_or_fetch_trace env now _ _ C, ?_,
    lookup_or_fetch_cities_ext env now _ _ C, ?_⟩
  · intro c hc hs
    unfold staleTrace
    exact List.mem_map_of_mem _ (List.mem_filter.mpr ⟨hc, hs⟩)
  · intro c hc hs
    simp [refreshOne, hs]

/-- Witness for C6: a polling client holding an 11-minute-old Paris entry
refreshes Paris before processing the request for Tokyo. -/
theorem C6_witness :
    (isBlank "Tokyo" ≠ true ∧ stale 660 cityParis = true) ∧
    ((∃ tail, (get_and_cache_weather_city envW Behaviors.POLLING 660 [cityParis]
        "Tokyo").trace = staleTrace 660 [cityParis] ++ tail) ∧
     (∀ c ∈ [cityParis], stale 660 c = true →
       Req.weather c.lat c.lon ∈ staleTrace 660 [cityParis]) ∧
     (∃ ext, (get_and_cache_weather_city envW Behaviors.POLLING 660 [cityParis]
        "Tokyo").cities = [cityParis].map (refreshOne envW 660) ++ ext) ∧
     (∀ c ∈ [cityParis], stale 660 c = true →
       refreshOne envW 660 c =
         ⟨c.city_name, c.lat, c.lon, weatherVal envW c.lat c.lon, 660⟩)) :=
  ⟨⟨by decide, by decide⟩,
   C6_polling_refreshes_stale_before_request envW 660 [cityParis] "Tokyo"
     (by decide) (by decide)⟩

end WeatherApiPy
